import Mathlib

/-!
# Shallow embedding of the polls application

The embedding follows `polls/views.py`: the `Question`/`Choice` records, the
three class-based views (`IndexView`, `DetailView`, `ResultsView`) with their
`get_queryset` overrides, and the `vote` function.  Timestamps are integers
(seconds); `timezone.now()` becomes an explicit parameter `now`.  The database
is an explicit value threaded through each handler; a handler returns its
response together with the database after the request, so reads and writes of
the stored data are visible in the type.

`Question.was_published_recently` lives in `polls/models.py`, which is not
among the given sources; it is modelled from the spec (see its doc comment).
-/

/-- A `Question` row: primary key, text, publication timestamp. -/
structure Question where
  id : Nat
  question_text : String
  pub_date : Int
deriving DecidableEq

/-- A `Choice` row: primary key, foreign key to its question, label, tally. -/
structure Choice where
  id : Nat
  question_id : Nat
  choice_text : String
  votes : Nat
deriving DecidableEq

/-- The persisted state: the two tables. -/
structure DB where
  questions : List Question
  choices : List Choice
deriving DecidableEq

/-- `q.choice_set.all()`: the choices whose foreign key is question `qid`. -/
def choice_set (db : DB) (qid : Nat) : List Choice :=
  db.choices.filter (fun c => c.question_id == qid)

/-- Primary keys are unique, as the storage layer guarantees. -/
def DB.wf (db : DB) : Bool :=
  decide (db.questions.map Question.id).Nodup && decide (db.choices.map Choice.id).Nodup

/-- The spec's "visible/eligible question": published (`pub_date <= now`) and
with at least one choice.  This is also the predicate the three `get_queryset`
overrides compute (proved below). -/
def visible (db : DB) (now : Int) (q : Question) : Bool :=
  decide (q.pub_date ≤ now) && !(choice_set db q.id).isEmpty

/-- The loop body shared by the three `get_queryset` overrides:
`query_set = query_set.exclude(pk=q.id)` when `q.choice_set.all()` is empty. -/
def excludeStep (db : DB) (acc : List Question) (q : Question) : List Question :=
  if (choice_set db q.id).isEmpty then acc.filter (fun r => !(r.id == q.id)) else acc

/-- `IndexView.get_queryset`: filter to `pub_date <= now`, drop each question of
that result whose choice set is empty (the `for`/`exclude` loop), order by
`pub_date` descending, keep the first five. -/
def IndexView.get_queryset (db : DB) (now : Int) : List Question :=
  let base := db.questions.filter (fun q => decide (q.pub_date ≤ now))
  ((base.foldl (excludeStep db) base).mergeSort
    (fun a b => decide (b.pub_date ≤ a.pub_date))).take 5

/-- The `IndexView` request handler: a GET returns the queryset (rendered by the
template) and leaves the database as it was. -/
def IndexView.get (db : DB) (now : Int) : List Question × DB :=
  (IndexView.get_queryset db now, db)

/-- `DetailView.get_queryset`: filter to `pub_date <= now`, then drop each
question of that result whose choice set is empty. -/
def DetailView.get_queryset (db : DB) (now : Int) : List Question :=
  let base := db.questions.filter (fun q => decide (q.pub_date ≤ now))
  base.foldl (excludeStep db) base

/-- `ResultsView.get_queryset`: identical text to `DetailView.get_queryset` in
the source. -/
def ResultsView.get_queryset (db : DB) (now : Int) : List Question :=
  let base := db.questions.filter (fun q => decide (q.pub_date ≤ now))
  base.foldl (excludeStep db) base

/-- What a `generic.DetailView` GET produces: 200 rendering the question found
in the queryset by primary key, or 404. -/
inductive GetResponse where
  /-- 200, the page for question `q`. -/
  | ok (q : Question) : GetResponse
  /-- 404. -/
  | notFound : GetResponse
deriving DecidableEq

/-- The `DetailView` request handler for `/polls/<qid>/`. -/
def DetailView.get (db : DB) (now : Int) (qid : Nat) : GetResponse :=
  match (DetailView.get_queryset db now).find? (fun q => q.id == qid) with
  | some q => .ok q
  | none => .notFound

/-- The `ResultsView` request handler for `/polls/<qid>/results/`. -/
def ResultsView.get (db : DB) (now : Int) (qid : Nat) : GetResponse :=
  match (ResultsView.get_queryset db now).find? (fun q => q.id == qid) with
  | some q => .ok q
  | none => .notFound

/-- Python `str.isdigit`: nonempty and every character has the Unicode digit
property.  The ASCII decimal digits are modelled exactly; of the further
characters with the digit property (which `int` does not accept) the model
carries one representative, SUPERSCRIPT TWO, U+00B2. -/
def isdigit (s : String) : Bool :=
  !s.isEmpty && s.toList.all (fun c => c.isDigit || c == '²')

/-- Python `int(s)` for the strings the handler feeds it: on a nonempty string
of ASCII decimal digits it returns the decimal value; on a string `isdigit`
accepted for a non-decimal digit character (such as "²") it raises
`ValueError`, modelled as `none`. -/
def pyint (s : String) : Option Nat :=
  if !s.isEmpty && s.toList.all Char.isDigit then
    some (s.toList.foldl (fun a c => 10 * a + (c.toNat - 48)) 0)
  else none

/-- The outcomes a request to `vote` can have. -/
inductive VoteResponse where
  /-- `Http404`. -/
  | notFound : VoteResponse
  /-- `HttpResponseBadRequest`, status 400. -/
  | badRequest : VoteResponse
  /-- 200: the detail template redisplayed for question `question_id` with
  `error_message` set ("You didn\'t select a choice with a valid id"). -/
  | render (question_id : Nat) : VoteResponse
  /-- 302 to `reverse('polls:results')` for question `question_id`. -/
  | redirect (question_id : Nat) : VoteResponse
  /-- An exception escapes the handler: the framework answers 500. -/
  | serverError : VoteResponse
deriving DecidableEq

/-- The `vote` view for `POST /polls/<question_id>/vote/`.  `choice` is the
POST body's `choice` field, `none` when the field is absent.  Returns the
response and the database after the request.

Mirrors the source: `get_object_or_404` then the future-date check, then the
`'choice' in request.POST and request.POST['choice'].isdigit()` guard; inside
the `try`, `int(...)` (whose `ValueError` is not among the caught exceptions)
and `question.choice_set.get(pk=choice_id)`; on success the tally is
incremented and saved by primary key. -/
def vote (db : DB) (now : Int) (question_id : Nat) (choice : Option String) :
    VoteResponse × DB :=
  match db.questions.find? (fun q => q.id == question_id) with
  | none => (.notFound, db)
  | some question =>
    if now < question.pub_date then (.notFound, db)
    else
      match choice with
      | some s =>
        if isdigit s then
          match pyint s with
          | none => (.serverError, db)
          | some choice_id =>
            match db.choices.find?
                (fun c => c.id == choice_id && c.question_id == question.id) with
            | none => (.render question.id, db)
            | some selected_choice =>
              (.redirect question.id,
               { db with
                  choices := db.choices.map (fun c =>
                    if c.id == selected_choice.id then
                      { c with votes := c.votes + 1 }
                    else c) })
        else (.badRequest, db)
      | none => (.badRequest, db)

/-- Modelled from the spec: `Question.was_published_recently` is defined in
`polls/models.py`, which is not among the given sources.  The spec states it is
true iff `now - 24h < pub_date <= now`.  Time is in seconds, so 24h = 86400. -/
def was_published_recently (now : Int) (q : Question) : Bool :=
  decide (now - 86400 < q.pub_date) && decide (q.pub_date ≤ now)

/-- The tally of the choice with primary key `cid`, when it exists. -/
def votesOf (db : DB) (cid : Nat) : Option Nat :=
  (db.choices.find? (fun c => c.id == cid)).map Choice.votes

/-- A question published at time 0, used for concrete checks. -/
def exQ : Question := ⟨1, "What is up", 0⟩

/-- A choice of `exQ` with three votes. -/
def exC : Choice := ⟨2, 1, "Not much", 3⟩

/-- A second choice of `exQ`. -/
def exC2 : Choice := ⟨3, 1, "The sky", 0⟩

/-- A database with one published question bearing two choices. -/
def exDb : DB := ⟨[exQ], [exC, exC2]⟩

/-- A database with one published question and no choices at all. -/
def exDbNoChoices : DB := ⟨[⟨1, "No choices here", 0⟩], []⟩

/-! ## The `for`/`exclude` loop computes a filter -/

theorem foldl_excludeStep (db : DB) (l : List Question) :
    ∀ acc : List Question,
      l.foldl (excludeStep db) acc
        = acc.filter (fun r =>
            l.all (fun q => !((choice_set db q.id).isEmpty && r.id == q.id))) := by
  induction l with
  | nil => intro acc; simp
  | cons q l ih =>
    intro acc
    rw [List.foldl_cons, ih]
    simp only [List.all_cons]
    cases hq : (choice_set db q.id).isEmpty with
    | false => simp [excludeStep, hq]
    | true =>
      simp only [excludeStep, hq, if_true, Bool.true_and, List.filter_filter]
      exact List.filter_congr fun x _ => Bool.and_comm _ _

/-- The net effect of a `get_queryset` body: the `visible` filter. -/
theorem filter_foldl_eq_visible (db : DB) (now : Int) :
    (db.questions.filter (fun q => decide (q.pub_date ≤ now))).foldl (excludeStep db)
        (db.questions.filter (fun q => decide (q.pub_date ≤ now)))
      = db.questions.filter (visible db now) := by
  rw [foldl_excludeStep, List.filter_filter]
  refine List.filter_congr fun x hmem => ?_
  unfold visible
  cases hpub : decide (x.pub_date ≤ now) with
  | false => simp
  | true =>
    simp only [Bool.and_true, Bool.true_and]
    cases hx : (choice_set db x.id).isEmpty with
    | false =>
      simp only [Bool.not_false]
      rw [List.all_eq_true]
      intro a _
      cases hid : x.id == a.id with
      | false => simp
      | true =>
        have hxa : x.id = a.id := by simpa using hid
        simp [← hxa, hx]
    | true =>
      simp only [Bool.not_true]
      rw [List.all_eq_false]
      exact ⟨x, List.mem_filter.mpr ⟨hmem, hpub⟩, by simp [hx]⟩

theorem DetailView_get_queryset_eq (db : DB) (now : Int) :
    DetailView.get_queryset db now = db.questions.filter (visible db now) :=
  filter_foldl_eq_visible db now

theorem ResultsView_get_queryset_eq (db : DB) (now : Int) :
    ResultsView.get_queryset db now = db.questions.filter (visible db now) :=
  filter_foldl_eq_visible db now

theorem IndexView_get_queryset_eq (db : DB) (now : Int) :
    IndexView.get_queryset db now
      = ((db.questions.filter (visible db now)).mergeSort
          (fun a b => decide (b.pub_date ≤ a.pub_date))).take 5 := by
  have h : IndexView.get_queryset db now
      = (((db.questions.filter (fun q => decide (q.pub_date ≤ now))).foldl
            (excludeStep db)
            (db.questions.filter (fun q => decide (q.pub_date ≤ now)))).mergeSort
          (fun a b => decide (b.pub_date ≤ a.pub_date))).take 5 := rfl
  rw [h, filter_foldl_eq_visible]

/-! ## Lookup by a unique key -/

theorem find?_eq_some_of_nodup_keys {α : Type} (key : α → Nat) (p : α → Bool)
    (l : List α) (a : α) (hn : (l.map key).Nodup) (ha : a ∈ l) (hp : p a = true)
    (hkey : ∀ b, p b = true → key b = key a) :
    l.find? p = some a := by
  induction l with
  | nil => cases ha
  | cons b l ih =>
    rw [List.map_cons, List.nodup_cons] at hn
    rcases List.mem_cons.mp ha with rfl | ha2
    · rw [List.find?_cons_of_pos _ hp]
    · cases hb : p b with
      | false =>
        rw [List.find?_cons_of_neg _ (by simp [hb])]
        exact ih hn.2 ha2
      | true =>
        exfalso
        refine hn.1 ?_
        rw [hkey b hb]
        exact List.mem_map_of_mem key ha2

theorem find?_map_of_key (upd : Choice → Choice) (hupd : ∀ c, (upd c).id = c.id)
    (l : List Choice) (x : Nat) :
    (l.map upd).find? (fun c => c.id == x) = (l.find? (fun c => c.id == x)).map upd := by
  induction l with
  | nil => rfl
  | cons c l ih =>
    rw [List.map_cons]
    cases hc : c.id == x with
    | true =>
      rw [List.find?_cons_of_pos (p := fun d : Choice => d.id == x) _ (by simp [hupd, hc]),
        List.find?_cons_of_pos (p := fun d : Choice => d.id == x) _ hc]
      rfl
    | false =>
      rw [List.find?_cons_of_neg (p := fun d : Choice => d.id == x) _ (by simp [hupd, hc]),
        List.find?_cons_of_neg (p := fun d : Choice => d.id == x) _ (by simp [hc])]
      exact ih

/-! ## Facts about the `vote` handler -/

theorem isdigit_of_pyint (s : String) (n : Nat) (hs : pyint s = some n) :
    isdigit s = true := by
  unfold pyint at hs
  by_cases hcond : (!s.isEmpty && s.toList.all Char.isDigit) = true
  · rw [Bool.and_eq_true] at hcond
    unfold isdigit
    rw [Bool.and_eq_true]
    refine ⟨hcond.1, ?_⟩
    rw [List.all_eq_true] at hcond ⊢
    intro a ha
    simp [hcond.2 a ha]
  · rw [if_neg hcond] at hs
    cases hs

theorem vote_snd_eq_or_redirect (db : DB) (now : Int) (qid : Nat)
    (choice : Option String) :
    (vote db now qid choice).2 = db ∨
      ∃ x, (vote db now qid choice).1 = .redirect x := by
  unfold vote
  repeat' split
  all_goals first
  | exact Or.inl rfl
  | exact Or.inr ⟨_, rfl⟩

theorem vote_notFound_iff (db : DB) (now : Int) (qid : Nat)
    (choice : Option String) :
    (vote db now qid choice).1 = .notFound ↔
      (db.questions.find? (fun q => q.id == qid) = none ∨
       ∃ q, db.questions.find? (fun q => q.id == qid) = some q ∧
         now < q.pub_date) := by
  cases hfind : db.questions.find? (fun q => q.id == qid) with
  | none => simp [vote, hfind]
  | some q =>
    by_cases hlt : now < q.pub_date
    · simp [vote, hfind, hlt]
    · constructor
      · intro h
        exfalso
        revert h
        simp only [vote, hfind, if_neg hlt]
        cases choice with
        | none => simp
        | some s =>
          cases hd : isdigit s with
          | false => simp [hd]
          | true =>
            cases hp : pyint s with
            | none => simp [hd, hp]
            | some n =>
              cases hc : db.choices.find?
                  (fun c => c.id == n && c.question_id == q.id) with
              | none => simp [hd, hp, hc]
              | some c => simp [hd, hp, hc]
      · intro h
        exfalso
        rcases h with h | ⟨q2, hq2, hlt2⟩
        · simp [hfind] at h
        · simp only [hfind, Option.some.injEq] at hq2
          subst hq2
          exact hlt hlt2

theorem vote_badRequest_iff (db : DB) (now : Int) (qid : Nat) (q : Question)
    (choice : Option String)
    (hq : db.questions.find? (fun r => r.id == qid) = some q)
    (hpub : q.pub_date ≤ now) :
    ((vote db now qid choice).1 = .badRequest ↔
      choice = none ∨ ∃ s, choice = some s ∧ isdigit s = false) := by
  have hnlt : ¬ now < q.pub_date := not_lt.mpr hpub
  cases choice with
  | none => simp [vote, hq, if_neg hnlt]
  | some s =>
    cases hd : isdigit s with
    | false => simp [vote, hq, if_neg hnlt, hd]
    | true =>
      cases hp : pyint s with
      | none => simp [vote, hq, if_neg hnlt, hd, hp]
      | some n =>
        cases hc : db.choices.find?
            (fun c => c.id == n && c.question_id == q.id) with
        | none => simp [vote, hq, if_neg hnlt, hd, hp, hc]
        | some c => simp [vote, hq, if_neg hnlt, hd, hp, hc]

theorem vote_success_eq (db : DB) (now : Int) (q : Question) (c : Choice)
    (s : String)
    (hnq : (db.questions.map Question.id).Nodup)
    (hnc : (db.choices.map Choice.id).Nodup)
    (hq : q ∈ db.questions) (hpub : q.pub_date ≤ now)
    (hc : c ∈ db.choices) (hcq : c.question_id = q.id)
    (hs : pyint s = some c.id) :
    vote db now q.id (some s)
      = (.redirect q.id,
         { db with choices := db.choices.map (fun d =>
             if d.id == c.id then { d with votes := d.votes + 1 } else d) }) := by
  have hfq : db.questions.find? (fun r => r.id == q.id) = some q :=
    find?_eq_some_of_nodup_keys Question.id (fun r => r.id == q.id)
      db.questions q hnq hq (by simp) (fun b hb => by simpa using hb)
  have hfc : db.choices.find?
      (fun d => d.id == c.id && d.question_id == q.id) = some c :=
    find?_eq_some_of_nodup_keys Choice.id
      (fun d => d.id == c.id && d.question_id == q.id) db.choices c hnc hc
      (by simp [hcq]) (fun b hb => by
        rw [Bool.and_eq_true] at hb
        simpa using hb.1)
  have hd := isdigit_of_pyint s c.id hs
  simp [vote, hfq, not_lt.mpr hpub, hd, hs, hfc]

/-! ## The claims -/

/-- C1: for every question visible at the time of the request and every choice
belonging to it, a POST to `vote` with that choice id (as the decimal string
the form submits) increments that choice's tally by exactly one, persists it
(all other tallies and all question rows unchanged), and answers a 302
redirect to the results page of that same question. -/
theorem claim_C1_vote_valid_choice (db : DB) (now : Int) (q : Question)
    (c : Choice) (s : String)
    (hwf : db.wf = true)
    (hq : q ∈ db.questions) (hpub : q.pub_date ≤ now)
    (hc : c ∈ db.choices) (hcq : c.question_id = q.id)
    (hs : pyint s = some c.id) :
    (vote db now q.id (some s)).1 = .redirect q.id ∧
    votesOf (vote db now q.id (some s)).2 c.id = some (c.votes + 1) ∧
    (∀ x : Nat, x ≠ c.id →
      votesOf (vote db now q.id (some s)).2 x = votesOf db x) ∧
    (vote db now q.id (some s)).2.questions = db.questions := by
  have hwf2 := hwf
  unfold DB.wf at hwf2
  rw [Bool.and_eq_true, decide_eq_true_eq, decide_eq_true_eq] at hwf2
  obtain ⟨hnq, hnc⟩ := hwf2
  have h := vote_success_eq db now q c s hnq hnc hq hpub hc hcq hs
  refine ⟨by rw [h], ?_, ?_, by rw [h]⟩
  · rw [h]
    unfold votesOf
    dsimp only
    rw [find?_map_of_key
      (fun d => if d.id == c.id then { d with votes := d.votes + 1 } else d)
      (fun d => by dsimp only; split <;> rfl) db.choices c.id]
    have hfcc : db.choices.find? (fun d => d.id == c.id) = some c :=
      find?_eq_some_of_nodup_keys Choice.id (fun d => d.id == c.id)
        db.choices c hnc hc (by simp) (fun b hb => by simpa using hb)
    rw [hfcc]
    simp
  · intro x hx
    rw [h]
    unfold votesOf
    dsimp only
    rw [find?_map_of_key
      (fun d => if d.id == c.id then { d with votes := d.votes + 1 } else d)
      (fun d => by dsimp only; split <;> rfl) db.choices x]
    cases hfx : db.choices.find? (fun d => d.id == x) with
    | none => simp
    | some d =>
      have hdx : d.id = x := by simpa using List.find?_some hfx
      have hne : ¬ d.id = c.id := by rw [hdx]; exact hx
      simp [hne]

/-- C1, witness: in `exDb` at time 5, voting for choice 2 of question 1 moves
its tally from 3 to 4, answers a redirect to the results of question 1 and
changes nothing else. -/
theorem claim_C1_witness :
    (vote exDb 5 1 (some "2")).1 = .redirect 1 ∧
    votesOf (vote exDb 5 1 (some "2")).2 2 = some 4 ∧
    (∀ x : Nat, x ≠ 2 → votesOf (vote exDb 5 1 (some "2")).2 x = votesOf exDb x) ∧
    (vote exDb 5 1 (some "2")).2.questions = exDb.questions :=
  claim_C1_vote_valid_choice exDb 5 exQ exC "2" (by decide) (by decide)
    (by decide) (by decide) (by decide) (by decide)

/-- C2: for every database state and time, the list view returns the
5-truncation of a `pub_date`-descending ordering of exactly the questions with
`pub_date <= now` and at least one choice, and performs no side effects on the
stored data. -/
theorem claim_C2_index_listing (db : DB) (now : Int) :
    ∃ l : List Question,
      l.Perm (db.questions.filter (visible db now)) ∧
      l.Pairwise (fun a b => b.pub_date ≤ a.pub_date) ∧
      (IndexView.get db now).1 = l.take 5 ∧
      (IndexView.get db now).1.length ≤ 5 ∧
      (IndexView.get db now).2 = db := by
  refine ⟨(db.questions.filter (visible db now)).mergeSort
      (fun a b => decide (b.pub_date ≤ a.pub_date)), ?_, ?_, ?_, ?_, rfl⟩
  · exact List.mergeSort_perm _ _
  · have htrans : ∀ a b c : Question,
        decide (b.pub_date ≤ a.pub_date) = true →
        decide (c.pub_date ≤ b.pub_date) = true →
        decide (c.pub_date ≤ a.pub_date) = true := by
      intro a b c hab hbc
      rw [decide_eq_true_eq] at hab hbc ⊢
      exact le_trans hbc hab
    have htot : ∀ a b : Question,
        (decide (b.pub_date ≤ a.pub_date) ||
         decide (a.pub_date ≤ b.pub_date)) = true := by
      intro a b
      rcases le_total b.pub_date a.pub_date with h | h
      · simp [h]
      · simp [h]
    have hsorted := List.sorted_mergeSort htrans htot
      (db.questions.filter (visible db now))
    exact hsorted.imp (fun hab => by simpa using hab)
  · exact IndexView_get_queryset_eq db now
  · rw [show (IndexView.get db now).1 = IndexView.get_queryset db now from rfl,
      IndexView_get_queryset_eq]
    simp [List.length_take]

/-- C3, counterexample: in `exDbNoChoices` question 1 exists, is published, and
has zero choices, so it is not visible; the claim then demands a 404 from
`vote`, but the handler answers the 200 redisplay. -/
theorem claim_C3_counterexample :
    choice_set exDbNoChoices 1 = [] ∧
    (exDbNoChoices.questions.find? (fun q => q.id == 1)).isSome = true ∧
    (vote exDbNoChoices 5 1 (some "1")).1 = .render 1 ∧
    (vote exDbNoChoices 5 1 (some "1")).1 ≠ .notFound := by decide

/-- C3, amended: the `vote` handler answers 404 exactly when the target
question does not exist or its `pub_date` is in the future; an existing
published question with zero choices is not rejected with 404 — its request
proceeds to the choice validation. -/
theorem claim_C3_amended (db : DB) (now : Int) (qid : Nat)
    (choice : Option String) :
    (vote db now qid choice).1 = .notFound ↔
      (db.questions.find? (fun q => q.id == qid) = none ∨
       ∃ q, db.questions.find? (fun q => q.id == qid) = some q ∧
         now < q.pub_date) :=
  vote_notFound_iff db now qid choice

/-- C4, counterexample: question 1 of `exDb` exists and is visible, and the
submitted value "0" is a digit string that denotes zero — not a positive
integer — yet the handler does not answer 400: it answers the 200 redisplay. -/
theorem claim_C4_counterexample :
    (exDb.questions.find? (fun r => r.id == 1) = some exQ) ∧
    exQ.pub_date ≤ (5 : Int) ∧
    (choice_set exDb 1).isEmpty = false ∧
    pyint "0" = some 0 ∧
    (vote exDb 5 1 (some "0")).1 = .render 1 ∧
    (vote exDb 5 1 (some "0")).1 ≠ .badRequest := by decide

/-- C4, amended: for every vote request on an existing, visible question, the
handler answers 400 iff the request body lacks a `choice` field or its value
fails Python's `str.isdigit` (is not a nonempty string of digit characters);
an all-digit value such as "0" passes the structural check even though it is
not a positive integer. -/
theorem claim_C4_amended (db : DB) (now : Int) (qid : Nat) (q : Question)
    (choice : Option String)
    (hq : db.questions.find? (fun r => r.id == qid) = some q)
    (hpub : q.pub_date ≤ now)
    (hvis : (choice_set db q.id).isEmpty = false) :
    ((vote db now qid choice).1 = .badRequest ↔
      choice = none ∨ ∃ s, choice = some s ∧ isdigit s = false) :=
  vote_badRequest_iff db now qid q choice hq hpub

/-- C4, witness: in `exDb` at time 5, submitting the non-digit value "abc" for
visible question 1 is answered with 400. -/
theorem claim_C4_witness :
    ((vote exDb 5 1 (some "abc")).1 = .badRequest ↔
      some "abc" = none ∨ ∃ s, some "abc" = some s ∧ isdigit s = false) :=
  claim_C4_amended exDb 5 1 exQ (some "abc") (by decide) (by decide) (by decide)

/-- C5: the claim misses a fifth outcome.  The value "²" (SUPERSCRIPT TWO,
U+00B2) passes Python's `str.isdigit`, so the handler calls `int("²")`, which
raises `ValueError` — an exception `except (KeyError, Choice.DoesNotExist)`
does not catch — and the request ends in an unhandled error (500), not in one
of 404/400/200/302: here question 1 of `exDb` exists and is published. -/
theorem claim_C5_unhandled_value_error :
    (exDb.questions.find? (fun r => r.id == 1) = some exQ) ∧
    exQ.pub_date ≤ (5 : Int) ∧
    isdigit "²" = true ∧
    pyint "²" = none ∧
    vote exDb 5 1 (some "²") = (.serverError, exDb) := by decide

/-- C6, counterexample: with the spec's own formula `now - 24h < pub_date <=
now`, a question published exactly at the current instant (here both are 0) IS
"recent", contradicting the claim's "never recent at the current instant". -/
theorem claim_C6_counterexample :
    exQ.pub_date = (0 : Int) ∧ was_published_recently 0 exQ = true := by
  constructor
  · rfl
  · decide

/-- C6, amended: "was published recently" is true iff
`now - 24h < pub_date <= now`; hence it is false whenever `pub_date` is
strictly in the future or more than 24 hours in the past, and a question
published exactly at the current instant IS "recent". -/
theorem claim_C6_amended (now : Int) (q : Question) :
    (was_published_recently now q = true ↔
      (now - 86400 < q.pub_date ∧ q.pub_date ≤ now)) ∧
    (q.pub_date = now → was_published_recently now q = true) := by
  constructor
  · unfold was_published_recently
    rw [Bool.and_eq_true, decide_eq_true_eq, decide_eq_true_eq]
  · intro h
    unfold was_published_recently
    rw [Bool.and_eq_true, decide_eq_true_eq, decide_eq_true_eq, h]
    omega

/-- C7: a question with zero choices never appears in the list view, and the
detail and results views for its id answer 404, whatever its `pub_date` and
the current time. -/
theorem claim_C7_zero_choices (db : DB) (now : Int) (qid : Nat)
    (h : choice_set db qid = []) :
    (∀ q ∈ (IndexView.get db now).1, q.id ≠ qid) ∧
    DetailView.get db now qid = .notFound ∧
    ResultsView.get db now qid = .notFound := by
  have hvis : ∀ x : Question, x.id = qid → visible db now x = false := by
    intro x hx
    unfold visible
    rw [hx, h]
    simp
  have hfind : ∀ l : List Question, l = db.questions.filter (visible db now) →
      l.find? (fun x => x.id == qid) = none := by
    intro l hl
    rw [List.find?_eq_none]
    intro x hx hxq
    rw [hl] at hx
    have h3 := (List.mem_filter.mp hx).2
    rw [hvis x (by simpa using hxq)] at h3
    cases h3
  refine ⟨?_, ?_, ?_⟩
  · intro p hp hpid
    rw [show (IndexView.get db now).1 = IndexView.get_queryset db now from rfl,
      IndexView_get_queryset_eq] at hp
    have h2 := List.mem_of_mem_take hp
    rw [List.mem_mergeSort] at h2
    have h3 := (List.mem_filter.mp h2).2
    rw [hvis p hpid] at h3
    cases h3
  · unfold DetailView.get
    rw [DetailView_get_queryset_eq,
      hfind (db.questions.filter (visible db now)) rfl]
  · unfold ResultsView.get
    rw [ResultsView_get_queryset_eq,
      hfind (db.questions.filter (visible db now)) rfl]

/-- C7, witness: in `exDbNoChoices` question 1 has zero choices; it is absent
from the listing and its detail and results pages answer 404. -/
theorem claim_C7_witness :
    (∀ q ∈ (IndexView.get exDbNoChoices 5).1, q.id ≠ 1) ∧
    DetailView.get exDbNoChoices 5 1 = .notFound ∧
    ResultsView.get exDbNoChoices 5 1 = .notFound :=
  claim_C7_zero_choices exDbNoChoices 5 1 (by decide)

/-- C8: a vote on an existing, visible question whose `choice` value is a
well-formed digit string that matches no choice of that question is answered
with the 200 redisplay carrying the inline error message, and the database —
every tally included — is exactly as before. -/
theorem claim_C8_unknown_choice (db : DB) (now : Int) (qid : Nat)
    (q : Question) (s : String) (n : Nat)
    (hq : db.questions.find? (fun r => r.id == qid) = some q)
    (hpub : q.pub_date ≤ now)
    (hvis : (choice_set db q.id).isEmpty = false)
    (hs : pyint s = some n)
    (hnone : ∀ c ∈ db.choices, ¬(c.id = n ∧ c.question_id = q.id)) :
    vote db now qid (some s) = (.render q.id, db) := by
  have hd := isdigit_of_pyint s n hs
  have hfnone : db.choices.find?
      (fun c => c.id == n && c.question_id == q.id) = none := by
    rw [List.find?_eq_none]
    intro c hc hpc
    rw [Bool.and_eq_true, beq_iff_eq, beq_iff_eq] at hpc
    exact hnone c hc hpc
  simp [vote, hq, not_lt.mpr hpub, hd, hs, hfnone]

/-- C8, witness: in `exDb` at time 5, voting "7" on question 1 (whose choices
are 2 and 3) is answered with the redisplay and changes nothing. -/
theorem claim_C8_witness :
    vote exDb 5 1 (some "7") = (.render 1, exDb) :=
  claim_C8_unknown_choice exDb 5 1 exQ "7" 7 (by decide) (by decide)
    (by decide) (by decide) (by decide)

/-- C9: every vote request answered with 400 leaves the persisted state — all
question and choice rows, hence every tally — exactly as before the request. -/
theorem claim_C9_bad_request_frame (db : DB) (now : Int) (qid : Nat)
    (choice : Option String)
    (h : (vote db now qid choice).1 = .badRequest) :
    (vote db now qid choice).2 = db := by
  rcases vote_snd_eq_or_redirect db now qid choice with h2 | ⟨x, h2⟩
  · exact h2
  · rw [h] at h2
    cases h2

/-- C9, witness: a vote on question 1 of `exDb` with no `choice` field is a
400 and leaves the database unchanged. -/
theorem claim_C9_witness : (vote exDb 5 1 none).2 = exDb :=
  claim_C9_bad_request_frame exDb 5 1 none (by decide)

/-- C10: the detail view and the results view agree on every request — same
response, and in particular 200 for an id exactly when the other is 200. -/
theorem claim_C10_detail_results_agree (db : DB) (now : Int) (qid : Nat) :
    DetailView.get db now qid = ResultsView.get db now qid ∧
    ((∃ q, DetailView.get db now qid = .ok q) ↔
      (∃ q, ResultsView.get db now qid = .ok q)) := by
  have h : DetailView.get db now qid = ResultsView.get db now qid := rfl
  exact ⟨h, by rw [h]⟩
